import Mathlib

/-!
Verification of the KineticParticle application.

The development embeds the per-frame particle animation core
(components/ParticleScene.tsx), the gesture classifier and the voice
tool-call handler (App.tsx) as Lean definitions, and proves the stated
behavioural properties about them.  JavaScript numbers are modelled as
real numbers; JavaScript values that may be `undefined` are modelled as
`Option`; code that can throw is modelled with `Except`.
-/

namespace KineticParticle

/-! ## Types (types.ts)

`ParticleMode` is a string enum: each enumerator is a string value, and
a `mode` field at runtime is simply a string, so unrecognized values are
representable. -/

namespace ParticleMode

def FLOAT : String := "float"

def GATHER : String := "gather"

def SWIRL : String := "swirl"

def EXPLODE : String := "explode"

def RAIN : String := "rain"

end ParticleMode

/-- The shared mutable configuration (`ParticleConfig` in types.ts).
`color` and `speed` are `Option`-valued because the voice tool-call
handler copies possibly-`undefined` argument values into them verbatim;
`none` models the JavaScript value `undefined`. -/
structure GlobalConfig where
  mode : String
  color : Option String
  speed : Option ℝ
  count : ℕ
  size : ℝ

/-- A three.js / MediaPipe style 3-component vector of JS numbers. -/
@[ext]
structure Vec3 where
  x : ℝ
  y : ℝ
  z : ℝ

/-! ## ParticleScene.tsx -/

/-- Per-particle simulation state, as created in the `useMemo` block of
`ParticleScene` (lines 17-30): `{ t, factor, speed, x, y, z, mx, my, mz }`.
The `originalColor` field is never read by the frame loop and is omitted. -/
@[ext]
structure Particle where
  t : ℝ
  factor : ℝ
  speed : ℝ
  x : ℝ
  y : ℝ
  z : ℝ
  mx : ℝ
  my : ℝ
  mz : ℝ

/-- The particle created for slot data `(rt, rfac, rsp, rx, ry, rz)` where each
argument is one `Math.random()` draw in `[0, 1)` (ParticleScene lines 19-27). -/
noncomputable def initParticle (rt rfac rsp rx ry rz : ℝ) : Particle :=
  { t := rt * 100
    factor := 20 + rfac * 100
    speed := 0.01 + rsp / 200
    x := rx * 100 - 50
    y := ry * 100 - 50
    z := rz * 100 - 50
    mx := 0
    my := 0
    mz := 0 }

/-- The module-level scratch `THREE.Object3D` named `dummy`
(ParticleScene line 10): position, Euler rotation, scale.  It persists
across particle iterations and across frames. -/
@[ext]
structure Dummy where
  position : Vec3
  rotation : Vec3
  scale : Vec3

/-- Truncation toward zero, the rounding used by the JavaScript `%` operator. -/
noncomputable def jsTrunc (x : ℝ) : ℤ :=
  if 0 ≤ x then ⌊x⌋ else ⌈x⌉

/-- The JavaScript remainder operator `a % b` on numbers:
`a - b * trunc (a / b)`. -/
noncomputable def jsMod (a b : ℝ) : ℝ :=
  a - b * jsTrunc (a / b)

/-- FLOAT case of the mode switch (ParticleScene lines 53-68). -/
noncomputable def floatCase (speed time : ℝ) (particle : Particle) (dummy : Dummy) :
    Particle × Dummy :=
  let x := particle.x
  let y := particle.y
  let z := particle.z
  let t := particle.t + speed * 0.5
  let a := Real.cos t + Real.sin (t * 1) / 10
  let b := Real.sin t + Real.cos (t * 2) / 10
  let s := Real.cos t
  let particleNext : Particle :=
    { particle with
        t := t
        mx := particle.mx + (x * a - particle.mx) * 0.1
        my := particle.my + (y * b - particle.my) * 0.1
        mz := particle.mz + (z * s - particle.mz) * 0.1 }
  let dummyNext : Dummy :=
    { dummy with
        position :=
          ⟨x + Real.sin (time + x) * 2,
           y + Real.cos (time + y) * 2,
           z + Real.sin (time + z) * 2⟩ }
  (particleNext, dummyNext)

/-- GATHER case of the mode switch (ParticleScene lines 70-82). -/
noncomputable def gatherCase (speed time : ℝ) (i : ℕ) (particle : Particle) (dummy : Dummy) :
    Particle × Dummy :=
  let particleNext : Particle :=
    { particle with
        mx := particle.mx + (0 - particle.mx) * speed * 0.1
        my := particle.my + (0 - particle.my) * speed * 0.1
        mz := particle.mz + (0 - particle.mz) * speed * 0.1 }
  let dummyNext : Dummy :=
    { dummy with
        position :=
          ⟨particle.x * 0.1 + Real.sin (time * 10 + i) * 2,
           particle.y * 0.1 + Real.cos (time * 10 + i) * 2,
           particle.z * 0.1⟩ }
  (particleNext, dummyNext)

/-- EXPLODE case of the mode switch (ParticleScene lines 84-91). -/
noncomputable def explodeCase (time : ℝ) (particle : Particle) (dummy : Dummy) :
    Particle × Dummy :=
  (particle,
   { dummy with
       position :=
         ⟨particle.x * (1 + Real.sin time * 0.5 + 1.5),
          particle.y * (1 + Real.cos time * 0.5 + 1.5),
          particle.z * (1 + Real.sin (time * 0.5) * 0.5 + 1.5)⟩ })

/-- SWIRL case of the mode switch (ParticleScene lines 93-103).  Only the
`y` component of the scratch rotation is assigned. -/
noncomputable def swirlCase (speed time : ℝ) (i : ℕ) (particle : Particle) (dummy : Dummy) :
    Particle × Dummy :=
  let angle := time * speed * 2 + i * 0.01
  let radius := 15 + Real.sin (time + i) * 5
  (particle,
   { dummy with
       position :=
         ⟨Real.cos angle * radius,
          (particle.y + Real.sin time * 10) * 0.5,
          Real.sin angle * radius⟩
       rotation := { dummy.rotation with y := angle } })

/-- RAIN case of the mode switch (ParticleScene lines 105-112). -/
noncomputable def rainCase (speed time : ℝ) (particle : Particle) (dummy : Dummy) :
    Particle × Dummy :=
  let fallSpeed := 50 * speed
  let newY0 := particle.y - jsMod (time * fallSpeed) 100
  let newY := if newY0 < -50 then newY0 + 100 else newY0
  (particle,
   { dummy with
       position := ⟨particle.x, newY, particle.z⟩
       scale := ⟨1, 5, 1⟩ })

/-- One iteration of the `particles.forEach` body inside `useFrame`
(ParticleScene lines 48-127): the mode switch (52-113) followed by the
shared rotation/scale tail (115-124).  The switch has no default case, so
an unrecognized mode string leaves both the particle and the scratch
object position untouched; the tail still runs and the resulting
transform is what `setMatrixAt` writes for the particle. -/
noncomputable def frameBody (mode : String) (speed size time : ℝ) (i : ℕ)
    (particle : Particle) (dummy : Dummy) : Particle × Dummy :=
  let pd :=
    if mode = ParticleMode.FLOAT then floatCase speed time particle dummy
    else if mode = ParticleMode.GATHER then gatherCase speed time i particle dummy
    else if mode = ParticleMode.EXPLODE then explodeCase time particle dummy
    else if mode = ParticleMode.SWIRL then swirlCase speed time i particle dummy
    else if mode = ParticleMode.RAIN then rainCase speed time particle dummy
    else (particle, dummy)
  let d1 :=
    if mode ≠ ParticleMode.SWIRL ∧ mode ≠ ParticleMode.RAIN then
      { pd.2 with rotation := ⟨Real.sin time, Real.cos time, 0⟩, scale := ⟨1, 1, 1⟩ }
    else pd.2
  let d2 :=
    if mode = ParticleMode.RAIN then d1
    else { d1 with scale := ⟨size, size, size⟩ }
  (pd.1, d2)

/-- A run of consecutive frames in a fixed mode for one particle slot:
frame number `n` observes elapsed time `times n`. -/
noncomputable def runFrames (mode : String) (speed size : ℝ) (times : ℕ → ℝ) (i : ℕ)
    (start : Particle × Dummy) : ℕ → Particle × Dummy
  | 0 => start
  | n + 1 =>
      let pd := runFrames mode speed size times i start n
      frameBody mode speed size (times n) i pd.1 pd.2

/-! ### Unfolding lemmas for the five regimes -/

theorem frameBody_float (speed size time : ℝ) (i : ℕ) (p : Particle) (d : Dummy) :
    frameBody ParticleMode.FLOAT speed size time i p d =
      ((floatCase speed time p d).1,
       { (floatCase speed time p d).2 with
           rotation := ⟨Real.sin time, Real.cos time, 0⟩
           scale := ⟨size, size, size⟩ }) := by
  simp [frameBody, ParticleMode.FLOAT, ParticleMode.GATHER, ParticleMode.EXPLODE,
    ParticleMode.SWIRL, ParticleMode.RAIN]

theorem frameBody_gather (speed size time : ℝ) (i : ℕ) (p : Particle) (d : Dummy) :
    frameBody ParticleMode.GATHER speed size time i p d =
      ((gatherCase speed time i p d).1,
       { (gatherCase speed time i p d).2 with
           rotation := ⟨Real.sin time, Real.cos time, 0⟩
           scale := ⟨size, size, size⟩ }) := by
  simp [frameBody, ParticleMode.FLOAT, ParticleMode.GATHER, ParticleMode.EXPLODE,
    ParticleMode.SWIRL, ParticleMode.RAIN]

theorem frameBody_explode (speed size time : ℝ) (i : ℕ) (p : Particle) (d : Dummy) :
    frameBody ParticleMode.EXPLODE speed size time i p d =
      ((explodeCase time p d).1,
       { (explodeCase time p d).2 with
           rotation := ⟨Real.sin time, Real.cos time, 0⟩
           scale := ⟨size, size, size⟩ }) := by
  simp [frameBody, ParticleMode.FLOAT, ParticleMode.GATHER, ParticleMode.EXPLODE,
    ParticleMode.SWIRL, ParticleMode.RAIN]

theorem frameBody_swirl (speed size time : ℝ) (i : ℕ) (p : Particle) (d : Dummy) :
    frameBody ParticleMode.SWIRL speed size time i p d =
      ((swirlCase speed time i p d).1,
       { (swirlCase speed time i p d).2 with scale := ⟨size, size, size⟩ }) := by
  simp [frameBody, ParticleMode.FLOAT, ParticleMode.GATHER, ParticleMode.EXPLODE,
    ParticleMode.SWIRL, ParticleMode.RAIN]

theorem frameBody_rain (speed size time : ℝ) (i : ℕ) (p : Particle) (d : Dummy) :
    frameBody ParticleMode.RAIN speed size time i p d = rainCase speed time p d := by
  simp [frameBody, ParticleMode.FLOAT, ParticleMode.GATHER, ParticleMode.EXPLODE,
    ParticleMode.SWIRL, ParticleMode.RAIN]

theorem frameBody_unmatched (mode : String) (speed size time : ℝ) (i : ℕ)
    (p : Particle) (d : Dummy)
    (h1 : mode ≠ ParticleMode.FLOAT) (h2 : mode ≠ ParticleMode.GATHER)
    (h3 : mode ≠ ParticleMode.EXPLODE) (h4 : mode ≠ ParticleMode.SWIRL)
    (h5 : mode ≠ ParticleMode.RAIN) :
    frameBody mode speed size time i p d =
      (p, { d with rotation := ⟨Real.sin time, Real.cos time, 0⟩,
                   scale := ⟨size, size, size⟩ }) := by
  simp [frameBody, h1, h2, h3, h4, h5]

/-! ### Arithmetic facts about the JavaScript remainder -/

theorem jsMod_eq_fract {a b : ℝ} (ha : 0 ≤ a) (hb : 0 < b) :
    jsMod a b = b * Int.fract (a / b) := by
  unfold jsMod jsTrunc
  rw [if_pos (div_nonneg ha hb.le), Int.fract]
  field_simp

theorem jsMod_nonneg {a b : ℝ} (ha : 0 ≤ a) (hb : 0 < b) : 0 ≤ jsMod a b := by
  rw [jsMod_eq_fract ha hb]
  exact mul_nonneg hb.le (Int.fract_nonneg _)

theorem jsMod_lt {a b : ℝ} (ha : 0 ≤ a) (hb : 0 < b) : jsMod a b < b := by
  rw [jsMod_eq_fract ha hb]
  have h := mul_lt_mul_of_pos_left (Int.fract_lt_one (a / b)) hb
  simpa using h

theorem jsMod_add_nat_mul {a b : ℝ} (n : ℕ) (ha : 0 ≤ a) (hb : 0 < b) :
    jsMod (a + b * n) b = jsMod a b := by
  have hab : (0 : ℝ) ≤ a + b * n := by positivity
  rw [jsMod_eq_fract hab hb, jsMod_eq_fract ha hb]
  congr 1
  have hdiv : (a + b * n) / b = a / b + (n : ℤ) := by
    push_cast
    field_simp
    ring
  rw [hdiv, Int.fract_add_int]

/-- The Y coordinate rendered by the RAIN case. -/
theorem rain_position_y (speed size time : ℝ) (i : ℕ) (p : Particle) (d : Dummy) :
    (frameBody ParticleMode.RAIN speed size time i p d).2.position.y =
      (if p.y - jsMod (time * (50 * speed)) 100 < -50
       then p.y - jsMod (time * (50 * speed)) 100 + 100
       else p.y - jsMod (time * (50 * speed)) 100) := by
  rw [frameBody_rain]
  rfl

/-- Concrete particle used by witnesses: typical initializer output with
seed (1, 0, 2) and zero drift. -/
noncomputable def pWit : Particle := ⟨0, 20, 0.01, 1, 0, 2, 0, 0, 0⟩

/-- Concrete scratch object used by witnesses. -/
noncomputable def dWit : Dummy := ⟨⟨0, 0, 0⟩, ⟨0, 0, 0⟩, ⟨1, 1, 1⟩⟩

/-- C1: in RAIN mode, for every particle whose seed y lies in [-50, 50],
every non-negative elapsed time and every positive speed, the rendered Y
position equals seed y minus `(time * (50 * speed)) % 100`, incremented by
exactly 100 exactly when that value falls below -50; Y is periodic in time
with period `100 / speed` seconds and always resides in [-50, 50]. -/
theorem rain_y_formula_periodic_bounded (p : Particle) (d : Dummy)
    (speed size time : ℝ) (i : ℕ)
    (hy₁ : -50 ≤ p.y) (hy₂ : p.y ≤ 50) (ht : 0 ≤ time) (hs : 0 < speed) :
    ((p.y - jsMod (time * (50 * speed)) 100 < -50 →
        (frameBody ParticleMode.RAIN speed size time i p d).2.position.y =
          p.y - jsMod (time * (50 * speed)) 100 + 100) ∧
     (¬ p.y - jsMod (time * (50 * speed)) 100 < -50 →
        (frameBody ParticleMode.RAIN speed size time i p d).2.position.y =
          p.y - jsMod (time * (50 * speed)) 100)) ∧
    (frameBody ParticleMode.RAIN speed size (time + 100 / speed) i p d).2.position.y =
      (frameBody ParticleMode.RAIN speed size time i p d).2.position.y ∧
    (-50 ≤ (frameBody ParticleMode.RAIN speed size time i p d).2.position.y ∧
     (frameBody ParticleMode.RAIN speed size time i p d).2.position.y ≤ 50) := by
  have ha : 0 ≤ time * (50 * speed) := by positivity
  have hb : (0 : ℝ) < 100 := by norm_num
  have hmod0 : 0 ≤ jsMod (time * (50 * speed)) 100 := jsMod_nonneg ha hb
  have hmod1 : jsMod (time * (50 * speed)) 100 < 100 := jsMod_lt ha hb
  have hperiod : (time + 100 / speed) * (50 * speed) =
      time * (50 * speed) + 100 * (50 : ℕ) := by
    push_cast
    field_simp
    ring
  refine ⟨⟨fun h => ?_, fun h => ?_⟩, ?_, ?_, ?_⟩
  · rw [rain_position_y, if_pos h]
  · rw [rain_position_y, if_neg h]
  · rw [rain_position_y, rain_position_y, hperiod,
      jsMod_add_nat_mul (50 : ℕ) ha hb]
  · rw [rain_position_y]
    split <;> rename_i h
    · linarith
    · linarith
  · rw [rain_position_y]
    split <;> rename_i h
    · linarith
    · linarith

/-- Witness for C1 at particle `pWit`, speed 1, time 0. -/
theorem rain_y_witness :
    -50 ≤ (frameBody ParticleMode.RAIN 1 1 0 0 pWit dWit).2.position.y ∧
    (frameBody ParticleMode.RAIN 1 1 0 0 pWit dWit).2.position.y ≤ 50 :=
  (rain_y_formula_periodic_bounded pWit dWit 1 1 0 0
    (by norm_num [pWit]) (by norm_num [pWit]) le_rfl one_pos).2.2

/-! ## App-level state (App.tsx)

The particle array is produced by a useMemo keyed on `config.count` alone
(ParticleScene lines 17-30), so a config update that does not change
`count` leaves the array untouched. -/

/-- App-level state relevant to mode switches. -/
structure AppState where
  config : GlobalConfig
  particles : List Particle

/-- The mode write performed on a gesture change (App.tsx line 205):
`setConfig(prev => \x7b ...prev, mode: detectedMode \x7d)`.  Only the config
changes; the memoized particle array is untouched. -/
def setConfigMode (s : AppState) (m : String) : AppState :=
  { s with config := { s.config with mode := m } }

/-- Concrete particle with nonzero seed y, used by counterexamples. -/
noncomputable def pExplode : Particle := ⟨0, 20, 0.01, 4, 2, -6, 0, 0, 0⟩

/-- C7 (amended): in EXPLODE mode the rendered position equals
`seed * (2.5 + 0.5 * osc(time))` per axis with sin for X, cos for Y and a
half-speed sin for Z, and the particle state (in particular drift) is not
touched; at time 0 the X and Z coordinates equal 2.5 times the seed but the
Y coordinate equals 3 times the seed, because cos 0 = 1. -/
theorem explode_position_formula (p : Particle) (d : Dummy)
    (speed size time : ℝ) (i : ℕ) :
    (frameBody ParticleMode.EXPLODE speed size time i p d).2.position =
      ⟨p.x * (2.5 + 0.5 * Real.sin time),
       p.y * (2.5 + 0.5 * Real.cos time),
       p.z * (2.5 + 0.5 * Real.sin (time * 0.5))⟩ ∧
    (frameBody ParticleMode.EXPLODE speed size time i p d).1 = p ∧
    (time = 0 →
      (frameBody ParticleMode.EXPLODE speed size time i p d).2.position =
        ⟨2.5 * p.x, 3 * p.y, 2.5 * p.z⟩) := by
  refine ⟨?_, ?_, ?_⟩
  · rw [frameBody_explode]
    show (explodeCase time p d).2.position = _
    simp only [explodeCase]
    ext <;> ring
  · rw [frameBody_explode]
    rfl
  · intro h
    subst h
    rw [frameBody_explode]
    show (explodeCase 0 p d).2.position = _
    simp only [explodeCase, zero_mul, Real.sin_zero, Real.cos_zero]
    ext <;> ring

/-- Witness for C7 at particle `pWit`, time 0. -/
theorem explode_position_witness :
    (frameBody ParticleMode.EXPLODE 1 1 0 0 pWit dWit).2.position =
      ⟨2.5 * pWit.x, 3 * pWit.y, 2.5 * pWit.z⟩ :=
  (explode_position_formula pWit dWit 1 1 0 0).2.2 rfl

/-- Counterexample for C7 as stated: at time 0 with seed y = 2 the rendered
Y coordinate is 6, not `2.5 * 2 = 5`, so position does not equal
`seed * 2.5` on every axis. -/
theorem explode_time_zero_y_is_three_seed :
    (frameBody ParticleMode.EXPLODE 1 1 0 0 pExplode dWit).2.position.y = 6 ∧
    (6 : ℝ) ≠ 2.5 * pExplode.y := by
  constructor
  · rw [frameBody_explode]
    show (explodeCase 0 pExplode dWit).2.position.y = 6
    simp only [explodeCase, Real.cos_zero, pExplode]
    norm_num
  · simp only [pExplode]
    norm_num

/-- C2 (amended): an unrecognized mode value is not a fatal error.  The
switch matches no case, so no regime logic runs (particle state and the
scratch position are untouched), but the shared tail still executes:
rotation is set to (sin time, cos time, 0), scale to the configured size,
and a transform is still produced for the particle. -/
theorem unrecognized_mode_still_renders (mode : String) (speed size time : ℝ)
    (i : ℕ) (p : Particle) (d : Dummy)
    (h1 : mode ≠ ParticleMode.FLOAT) (h2 : mode ≠ ParticleMode.GATHER)
    (h3 : mode ≠ ParticleMode.EXPLODE) (h4 : mode ≠ ParticleMode.SWIRL)
    (h5 : mode ≠ ParticleMode.RAIN) :
    frameBody mode speed size time i p d =
      (p, { d with rotation := ⟨Real.sin time, Real.cos time, 0⟩,
                   scale := ⟨size, size, size⟩ }) :=
  frameBody_unmatched mode speed size time i p d h1 h2 h3 h4 h5

/-- Witness for C2 at the unrecognized mode string "spiral". -/
theorem unrecognized_mode_witness :
    frameBody "spiral" 1 1 0 0 pWit dWit =
      (pWit, { dWit with rotation := ⟨Real.sin 0, Real.cos 0, 0⟩,
                         scale := ⟨1, 1, 1⟩ }) :=
  unrecognized_mode_still_renders "spiral" 1 1 0 0 pWit dWit
    (by decide) (by decide) (by decide) (by decide) (by decide)

/-- Counterexample for C2 as stated: with the unrecognized mode "spiral"
the per-frame update does not fail fast; it produces a concrete transform
(keeping the stale scratch position, with the shared tail applied). -/
theorem unrecognized_mode_transform_produced :
    (frameBody "spiral" 1 1 0 0 pWit ⟨⟨7, 8, 9⟩, ⟨0, 0, 0⟩, ⟨1, 1, 1⟩⟩).2 =
      ⟨⟨7, 8, 9⟩, ⟨0, 1, 0⟩, ⟨1, 1, 1⟩⟩ := by
  rw [frameBody_unmatched "spiral" 1 1 0 0 pWit _
    (by decide) (by decide) (by decide) (by decide) (by decide)]
  simp [Real.sin_zero, Real.cos_zero]

/-- C3: the EXPLODE, SWIRL and RAIN cases leave the drift state
(mx, my, mz) unchanged; every drift update in every mode is a smoothing
step `d + (target - d) * f` with factor 0 (identity), 0.1 (FLOAT) or
`speed * 0.1` (GATHER) — never an explicit reset to zero; and a mode
switch only rewrites the config, leaving the particle array (hence every
drift value) exactly as it was before the switch. -/
theorem drift_never_reset_and_preserved :
    (∀ (mode : String) (speed size time : ℝ) (i : ℕ) (p : Particle) (d : Dummy),
        mode = ParticleMode.EXPLODE ∨ mode = ParticleMode.SWIRL ∨
          mode = ParticleMode.RAIN →
        (frameBody mode speed size time i p d).1.mx = p.mx ∧
        (frameBody mode speed size time i p d).1.my = p.my ∧
        (frameBody mode speed size time i p d).1.mz = p.mz) ∧
    (∀ (s : AppState) (m : String), (setConfigMode s m).particles = s.particles) ∧
    (∀ (mode : String) (speed size time : ℝ) (i : ℕ) (p : Particle) (d : Dummy),
        ∃ fx tx fy ty fz tz : ℝ,
          ((frameBody mode speed size time i p d).1.mx = p.mx + (tx - p.mx) * fx ∧
           (frameBody mode speed size time i p d).1.my = p.my + (ty - p.my) * fy ∧
           (frameBody mode speed size time i p d).1.mz = p.mz + (tz - p.mz) * fz) ∧
          (fx = 0 ∨ fx = 0.1 ∨ fx = speed * 0.1) ∧
          (fy = 0 ∨ fy = 0.1 ∨ fy = speed * 0.1) ∧
          (fz = 0 ∨ fz = 0.1 ∨ fz = speed * 0.1)) := by
  refine ⟨?_, fun s m => rfl, ?_⟩
  · rintro mode speed size time i p d (rfl | rfl | rfl)
    · rw [frameBody_explode]
      exact ⟨rfl, rfl, rfl⟩
    · rw [frameBody_swirl]
      exact ⟨rfl, rfl, rfl⟩
    · rw [frameBody_rain]
      exact ⟨rfl, rfl, rfl⟩
  · intro mode speed size time i p d
    by_cases hf : mode = ParticleMode.FLOAT
    · subst hf
      rw [frameBody_float]
      refine ⟨0.1,
        p.x * (Real.cos (p.t + speed * 0.5) + Real.sin ((p.t + speed * 0.5) * 1) / 10),
        0.1,
        p.y * (Real.sin (p.t + speed * 0.5) + Real.cos ((p.t + speed * 0.5) * 2) / 10),
        0.1, p.z * Real.cos (p.t + speed * 0.5), ⟨?_, ?_, ?_⟩,
        Or.inr (Or.inl rfl), Or.inr (Or.inl rfl), Or.inr (Or.inl rfl)⟩ <;>
        simp only [floatCase] <;> ring
    by_cases hg : mode = ParticleMode.GATHER
    · subst hg
      rw [frameBody_gather]
      refine ⟨speed * 0.1, 0, speed * 0.1, 0, speed * 0.1, 0, ⟨?_, ?_, ?_⟩,
        Or.inr (Or.inr rfl), Or.inr (Or.inr rfl), Or.inr (Or.inr rfl)⟩ <;>
        simp only [gatherCase] <;> ring
    have hid : (frameBody mode speed size time i p d).1 = p := by
      by_cases he : mode = ParticleMode.EXPLODE
      · subst he; rw [frameBody_explode]; rfl
      by_cases hw : mode = ParticleMode.SWIRL
      · subst hw; rw [frameBody_swirl]; rfl
      by_cases hr : mode = ParticleMode.RAIN
      · subst hr; rw [frameBody_rain]; rfl
      · rw [frameBody_unmatched mode speed size time i p d hf hg he hw hr]
    refine ⟨0, 0, 0, 0, 0, 0, ⟨?_, ?_, ?_⟩, Or.inl rfl, Or.inl rfl, Or.inl rfl⟩ <;>
      rw [hid] <;> ring

/-- Witness for C3 at the RAIN mode and particle `pWit`. -/
theorem drift_preserved_witness :
    (frameBody ParticleMode.RAIN 1 1 0 0 pWit dWit).1.mx = pWit.mx ∧
    (frameBody ParticleMode.RAIN 1 1 0 0 pWit dWit).1.my = pWit.my ∧
    (frameBody ParticleMode.RAIN 1 1 0 0 pWit dWit).1.mz = pWit.mz :=
  drift_never_reset_and_preserved.1 ParticleMode.RAIN 1 1 0 0 pWit dWit
    (Or.inr (Or.inr rfl))

/-! ### GATHER drift and FLOAT phase across frames -/

theorem frameBody_gather_drift (speed size time : ℝ) (i : ℕ) (p : Particle) (d : Dummy) :
    (frameBody ParticleMode.GATHER speed size time i p d).1.mx = (1 - speed * 0.1) * p.mx ∧
    (frameBody ParticleMode.GATHER speed size time i p d).1.my = (1 - speed * 0.1) * p.my ∧
    (frameBody ParticleMode.GATHER speed size time i p d).1.mz = (1 - speed * 0.1) * p.mz := by
  rw [frameBody_gather]
  refine ⟨?_, ?_, ?_⟩ <;> simp only [gatherCase] <;> ring

theorem runFrames_gather_drift (speed size : ℝ) (times : ℕ → ℝ) (i : ℕ)
    (p : Particle) (d : Dummy) (n : ℕ) :
    (runFrames ParticleMode.GATHER speed size times i (p, d) n).1.mx =
      (1 - speed * 0.1) ^ n * p.mx ∧
    (runFrames ParticleMode.GATHER speed size times i (p, d) n).1.my =
      (1 - speed * 0.1) ^ n * p.my ∧
    (runFrames ParticleMode.GATHER speed size times i (p, d) n).1.mz =
      (1 - speed * 0.1) ^ n * p.mz := by
  induction n with
  | zero => simp [runFrames]
  | succ n ih =>
      obtain ⟨hx, hy, hz⟩ := ih
      have h := frameBody_gather_drift speed size (times n) i
        (runFrames ParticleMode.GATHER speed size times i (p, d) n).1
        (runFrames ParticleMode.GATHER speed size times i (p, d) n).2
      rw [runFrames]
      refine ⟨?_, ?_, ?_⟩
      · rw [h.1, hx]; ring
      · rw [h.2.1, hy]; ring
      · rw [h.2.2, hz]; ring

theorem frameBody_float_t (speed size time : ℝ) (i : ℕ) (p : Particle) (d : Dummy) :
    (frameBody ParticleMode.FLOAT speed size time i p d).1.t = p.t + speed * 0.5 := by
  rw [frameBody_float]
  rfl

theorem frameBody_nonfloat_t (mode : String) (speed size time : ℝ) (i : ℕ)
    (p : Particle) (d : Dummy) (h : mode ≠ ParticleMode.FLOAT) :
    (frameBody mode speed size time i p d).1.t = p.t := by
  by_cases hg : mode = ParticleMode.GATHER
  · subst hg; rw [frameBody_gather]; rfl
  by_cases he : mode = ParticleMode.EXPLODE
  · subst he; rw [frameBody_explode]; rfl
  by_cases hw : mode = ParticleMode.SWIRL
  · subst hw; rw [frameBody_swirl]; rfl
  by_cases hr : mode = ParticleMode.RAIN
  · subst hr; rw [frameBody_rain]; rfl
  · rw [frameBody_unmatched mode speed size time i p d h hg he hw hr]

theorem runFrames_float_t (speed size : ℝ) (times : ℕ → ℝ) (i : ℕ)
    (p : Particle) (d : Dummy) (n : ℕ) :
    (runFrames ParticleMode.FLOAT speed size times i (p, d) n).1.t =
      p.t + n * (speed * 0.5) := by
  induction n with
  | zero => simp [runFrames]
  | succ n ih =>
      rw [runFrames, frameBody_float_t, ih]
      push_cast
      ring

/-- Particle with unit drift on the x component, used by the C8
counterexample. -/
noncomputable def pGather : Particle := ⟨0, 20, 0.01, 1, 0, 2, 1, 0, 0⟩

/-- C8 (amended): each GATHER frame multiplies every drift component by
`(1 - speed * 0.1)` (for every speed); when `0 < speed < 20` the magnitude
of each nonzero drift component strictly decreases each step and the drift
converges to (0, 0, 0) as the number of elapsed frames tends to infinity.
For `speed ≥ 20` the factor leaves the unit interval and the drift can
grow, so the claim as stated over every positive speed fails. -/
theorem gather_drift_converges (speed size : ℝ) (times : ℕ → ℝ) (i : ℕ)
    (p : Particle) (d : Dummy) (hs0 : 0 < speed) (hs20 : speed < 20) :
    (∀ time,
        (frameBody ParticleMode.GATHER speed size time i p d).1.mx =
          (1 - speed * 0.1) * p.mx ∧
        (frameBody ParticleMode.GATHER speed size time i p d).1.my =
          (1 - speed * 0.1) * p.my ∧
        (frameBody ParticleMode.GATHER speed size time i p d).1.mz =
          (1 - speed * 0.1) * p.mz) ∧
    (∀ time, p.mx ≠ 0 →
        |(frameBody ParticleMode.GATHER speed size time i p d).1.mx| < |p.mx|) ∧
    (∀ time, p.my ≠ 0 →
        |(frameBody ParticleMode.GATHER speed size time i p d).1.my| < |p.my|) ∧
    (∀ time, p.mz ≠ 0 →
        |(frameBody ParticleMode.GATHER speed size time i p d).1.mz| < |p.mz|) ∧
    Filter.Tendsto
      (fun n => (runFrames ParticleMode.GATHER speed size times i (p, d) n).1.mx)
      Filter.atTop (nhds 0) ∧
    Filter.Tendsto
      (fun n => (runFrames ParticleMode.GATHER speed size times i (p, d) n).1.my)
      Filter.atTop (nhds 0) ∧
    Filter.Tendsto
      (fun n => (runFrames ParticleMode.GATHER speed size times i (p, d) n).1.mz)
      Filter.atTop (nhds 0) := by
  have hr : |1 - speed * 0.1| < 1 := by
    rw [abs_lt]
    constructor <;> nlinarith
  have hdec : ∀ x : ℝ, x ≠ 0 → |(1 - speed * 0.1) * x| < |x| := by
    intro x hx
    rw [abs_mul]
    exact mul_lt_of_lt_one_left (abs_pos.mpr hx) hr
  have hpow : Filter.Tendsto (fun n : ℕ => (1 - speed * 0.1) ^ n)
      Filter.atTop (nhds 0) := tendsto_pow_atTop_nhds_zero_iff.mpr hr
  refine ⟨fun time => frameBody_gather_drift speed size time i p d,
    fun time hx => ?_, fun time hy => ?_, fun time hz => ?_, ?_, ?_, ?_⟩
  · rw [(frameBody_gather_drift speed size time i p d).1]
    exact hdec _ hx
  · rw [(frameBody_gather_drift speed size time i p d).2.1]
    exact hdec _ hy
  · rw [(frameBody_gather_drift speed size time i p d).2.2]
    exact hdec _ hz
  · refine Filter.Tendsto.congr
      (fun n => ((runFrames_gather_drift speed size times i p d n).1).symm) ?_
    simpa using hpow.mul_const p.mx
  · refine Filter.Tendsto.congr
      (fun n => ((runFrames_gather_drift speed size times i p d n).2.1).symm) ?_
    simpa using hpow.mul_const p.my
  · refine Filter.Tendsto.congr
      (fun n => ((runFrames_gather_drift speed size times i p d n).2.2).symm) ?_
    simpa using hpow.mul_const p.mz

/-- Witness for C8 at speed 1 and particle `pGather` (drift x = 1). -/
theorem gather_drift_witness :
    |(frameBody ParticleMode.GATHER 1 1 0 0 pGather dWit).1.mx| < |pGather.mx| :=
  (gather_drift_converges 1 1 (fun _ => 0) 0 pGather dWit one_pos
    (by norm_num)).2.1 0 (by norm_num [pGather])

/-- Counterexample for C8 as stated: at speed 30 (a positive speed) a
GATHER step multiplies the drift x component 1 by -2, so its magnitude
strictly increases instead of decreasing. -/
theorem gather_speed_thirty_diverges :
    (frameBody ParticleMode.GATHER 30 1 0 0 pGather dWit).1.mx = -2 ∧
    ¬ |(frameBody ParticleMode.GATHER 30 1 0 0 pGather dWit).1.mx| < |pGather.mx| := by
  have h := (frameBody_gather_drift 30 1 0 0 pGather dWit).1
  have hmx : pGather.mx = 1 := rfl
  rw [hmx] at h
  norm_num at h
  refine ⟨h, ?_⟩
  rw [h, hmx]
  norm_num

/-- C9: the phase accumulator advances by exactly `speed * 0.5` on each
FLOAT frame, is not written by any other mode (recognized or not), equals
seed phase plus `n * speed * 0.5` after n FLOAT frames, and is strictly
monotone in the frame number whenever `0 < speed`. -/
theorem float_phase_monotone (speed size : ℝ) (times : ℕ → ℝ) (i : ℕ)
    (p : Particle) (d : Dummy) :
    (∀ time, (frameBody ParticleMode.FLOAT speed size time i p d).1.t =
        p.t + speed * 0.5) ∧
    (∀ (mode : String) (time : ℝ), mode ≠ ParticleMode.FLOAT →
        (frameBody mode speed size time i p d).1.t = p.t) ∧
    (∀ n : ℕ, (runFrames ParticleMode.FLOAT speed size times i (p, d) n).1.t =
        p.t + n * (speed * 0.5)) ∧
    (0 < speed → ∀ n₁ n₂ : ℕ, n₁ < n₂ →
        (runFrames ParticleMode.FLOAT speed size times i (p, d) n₁).1.t <
          (runFrames ParticleMode.FLOAT speed size times i (p, d) n₂).1.t) := by
  refine ⟨fun time => frameBody_float_t speed size time i p d,
    fun mode time h => frameBody_nonfloat_t mode speed size time i p d h,
    fun n => runFrames_float_t speed size times i p d n,
    fun hs n₁ n₂ hlt => ?_⟩
  rw [runFrames_float_t, runFrames_float_t]
  have hc : (n₁ : ℝ) < n₂ := Nat.cast_lt.mpr hlt
  nlinarith

/-- Witness for C9: with speed 1, the phase after one FLOAT frame is
strictly larger than the phase after zero frames. -/
theorem float_phase_witness :
    (runFrames ParticleMode.FLOAT 1 1 (fun _ => 0) 0 (pWit, dWit) 0).1.t <
      (runFrames ParticleMode.FLOAT 1 1 (fun _ => 0) 0 (pWit, dWit) 1).1.t :=
  (float_phase_monotone 1 1 (fun _ => 0) 0 pWit dWit).2.2.2 one_pos 0 1 Nat.zero_lt_one

/-! ## Gesture classification (App.tsx lines 128-213) -/

/-- A MediaPipe hand landmark in normalized coordinates. -/
structure Landmark where
  x : ℝ
  y : ℝ

/-- A thrown JavaScript exception. -/
inductive JsError where
  | typeError
deriving DecidableEq

/-- Property access `v.y` on a possibly-undefined landmark value:
accessing a property of `undefined` throws a TypeError. -/
def jsY : Option Landmark → Except JsError ℝ
  | none => Except.error JsError.typeError
  | some l => Except.ok l.y

/-- Property access `v.x` on a possibly-undefined landmark value. -/
def jsX : Option Landmark → Except JsError ℝ
  | none => Except.error JsError.typeError
  | some l => Except.ok l.x

/-- One state write performed during gesture analysis: a `setConfig` size
update, a `setConfig` mode update, or a `setCurrentGesture` label update. -/
inductive ConfigWrite where
  | setSize (v : ℝ)
  | setMode (m : String)
  | setGesture (label : String)

/-- Apply one logged write to the config; the label write does not touch
the config. -/
def applyWrite (config : GlobalConfig) : ConfigWrite → GlobalConfig
  | ConfigWrite.setSize v => { config with size := v }
  | ConfigWrite.setMode m => { config with mode := m }
  | ConfigWrite.setGesture _ => config

/-- Apply a log of writes in order. -/
def applyWrites (config : GlobalConfig) (ws : List ConfigWrite) : GlobalConfig :=
  ws.foldl applyWrite config

/-- The gesture analysis routine (App.tsx lines 148-213) for one video
frame.  Inputs: the landmark array, the config value in scope and the
currently displayed gesture label.  Output: the ordered log of state
writes performed, the resulting config and the resulting label.  Queued
functional state updates are applied immediately (single-threaded
semantics); property reads on missing landmark indices throw, in the
evaluation order of the source. -/
noncomputable def analyzeGesture (landmarks : List Landmark)
    (config : GlobalConfig) (currentGesture : String) :
    Except JsError (List ConfigWrite × GlobalConfig × String) := do
  let thumbTip := landmarks.get? 4
  let indexTip := landmarks.get? 8
  let middleTip := landmarks.get? 12
  let ringTip := landmarks.get? 16
  let pinkyTip := landmarks.get? 20
  let indexBase := landmarks.get? 5
  let middleBase := landmarks.get? 9
  let ringBase := landmarks.get? 13
  let pinkyBase := landmarks.get? 17
  let iTipY ← jsY indexTip
  let iBaseY ← jsY indexBase
  let isIndexUp := iTipY < iBaseY
  let mTipY ← jsY middleTip
  let mBaseY ← jsY middleBase
  let isMiddleUp := mTipY < mBaseY
  let rTipY ← jsY ringTip
  let rBaseY ← jsY ringBase
  let isRingUp := rTipY < rBaseY
  let pTipY ← jsY pinkyTip
  let pBaseY ← jsY pinkyBase
  let isPinkyUp := pTipY < pBaseY
  let tX ← jsX thumbTip
  let iX ← jsX indexTip
  let tY ← jsY thumbTip
  let iY ← jsY indexTip
  let pinchDist := Real.sqrt ((tX - iX) ^ 2 + (tY - iY) ^ 2)
  let branch : String × String × List ConfigWrite :=
    if pinchDist < 0.05 then
      ("PINCH (Resize)", config.mode, [ConfigWrite.setSize 0.5])
    else if ¬isIndexUp ∧ ¬isMiddleUp ∧ ¬isRingUp ∧ ¬isPinkyUp then
      ("FIST (Gather)", ParticleMode.GATHER, [])
    else if isIndexUp ∧ isMiddleUp ∧ ¬isRingUp ∧ ¬isPinkyUp then
      ("PEACE (Rain)", ParticleMode.RAIN, [])
    else if isIndexUp ∧ ¬isMiddleUp ∧ ¬isRingUp ∧ ¬isPinkyUp then
      ("POINT (Swirl)", ParticleMode.SWIRL, [])
    else if isIndexUp ∧ isMiddleUp ∧ isRingUp ∧ isPinkyUp then
      ("OPEN PALM (Explode)", ParticleMode.EXPLODE, [ConfigWrite.setSize 1.0])
    else
      ("NEUTRAL (Float)", ParticleMode.FLOAT, [])
  let detectedName := branch.1
  let detectedMode := branch.2.1
  let writes0 := branch.2.2
  let gated :=
    if detectedMode ≠ config.mode then
      (writes0 ++ [ConfigWrite.setMode detectedMode,
                   ConfigWrite.setGesture detectedName],
       detectedName)
    else (writes0, currentGesture)
  let final :=
    if currentGesture ≠ detectedName ∧ detectedName ≠ "" then
      (gated.1 ++ [ConfigWrite.setGesture detectedName], detectedName)
    else gated
  pure (final.1, applyWrites config final.1, final.2)

/-- The per-video-frame handler (App.tsx predictWebcam, lines 128-146):
detections with zero hands skip classification and change nothing;
otherwise the first landmark array is analyzed. -/
noncomputable def predictWebcamStep (landmarksResults : List (List Landmark))
    (config : GlobalConfig) (currentGesture : String) :
    Except JsError (List ConfigWrite × GlobalConfig × String) :=
  match landmarksResults with
  | [] => Except.ok ([], config, currentGesture)
  | l :: _ => analyzeGesture l config currentGesture

/-- Gesture detection outcome: displayed label, detected mode and the
optional size write of the matching rule. -/
structure Detection where
  label : String
  mode : String
  sizeWrite : Option ℝ

/-- Modelled from the spec precedence table (spec section 4.3), as the
claim states it: first matching rule wins — PINCH (thumb tip to index tip
distance below 0.05), then FIST (all four non-thumb tips not above their
bases), then PEACE, then POINT, then OPEN PALM, else NEUTRAL. -/
noncomputable def classifyGestureSpec (thumbTip indexTip middleTip ringTip pinkyTip
    indexBase middleBase ringBase pinkyBase : Landmark) (mode : String) : Detection :=
  let isIndexUp := indexTip.y < indexBase.y
  let isMiddleUp := middleTip.y < middleBase.y
  let isRingUp := ringTip.y < ringBase.y
  let isPinkyUp := pinkyTip.y < pinkyBase.y
  if Real.sqrt ((thumbTip.x - indexTip.x) ^ 2 + (thumbTip.y - indexTip.y) ^ 2) < 0.05 then
    ⟨"PINCH (Resize)", mode, some 0.5⟩
  else if ¬isIndexUp ∧ ¬isMiddleUp ∧ ¬isRingUp ∧ ¬isPinkyUp then
    ⟨"FIST (Gather)", ParticleMode.GATHER, none⟩
  else if isIndexUp ∧ isMiddleUp ∧ ¬isRingUp ∧ ¬isPinkyUp then
    ⟨"PEACE (Rain)", ParticleMode.RAIN, none⟩
  else if isIndexUp ∧ ¬isMiddleUp ∧ ¬isRingUp ∧ ¬isPinkyUp then
    ⟨"POINT (Swirl)", ParticleMode.SWIRL, none⟩
  else if isIndexUp ∧ isMiddleUp ∧ isRingUp ∧ isPinkyUp then
    ⟨"OPEN PALM (Explode)", ParticleMode.EXPLODE, some 1.0⟩
  else
    ⟨"NEUTRAL (Float)", ParticleMode.FLOAT, none⟩

/-- The branch effects and debounce tail of gesture analysis, applied to a
detection outcome (App.tsx lines 175-212). -/
noncomputable def applyDetection (det : Detection) (config : GlobalConfig)
    (currentGesture : String) : List ConfigWrite × GlobalConfig × String :=
  let writes0 := match det.sizeWrite with
    | some v => [ConfigWrite.setSize v]
    | none => []
  let gated :=
    if det.mode ≠ config.mode then
      (writes0 ++ [ConfigWrite.setMode det.mode, ConfigWrite.setGesture det.label],
       det.label)
    else (writes0, currentGesture)
  let final :=
    if currentGesture ≠ det.label ∧ det.label ≠ "" then
      (gated.1 ++ [ConfigWrite.setGesture det.label], det.label)
    else gated
  (final.1, applyWrites config final.1, final.2)

theorem ok_bind {α β : Type} (x : α) (f : α → Except JsError β) :
    (Except.ok x >>= f : Except JsError β) = f x := rfl

theorem pure_ok {α : Type} (x : α) : (pure x : Except JsError α) = Except.ok x := rfl

/-- When all nine referenced landmark indices are present, the monadic
gesture routine computes exactly the spec-table classification followed by
the write/debounce tail. -/
theorem analyzeGesture_eq_spec (landmarks : List Landmark) (config : GlobalConfig)
    (currentGesture : String)
    (tT iT mT rT pT iB mB rB pB : Landmark)
    (h4 : landmarks.get? 4 = some tT) (h8 : landmarks.get? 8 = some iT)
    (h12 : landmarks.get? 12 = some mT) (h16 : landmarks.get? 16 = some rT)
    (h20 : landmarks.get? 20 = some pT) (h5 : landmarks.get? 5 = some iB)
    (h9 : landmarks.get? 9 = some mB) (h13 : landmarks.get? 13 = some rB)
    (h17 : landmarks.get? 17 = some pB) :
    analyzeGesture landmarks config currentGesture =
      Except.ok (applyDetection
        (classifyGestureSpec tT iT mT rT pT iB mB rB pB config.mode)
        config currentGesture) := by
  rw [analyzeGesture, h4, h8, h12, h16, h20, h5, h9, h13, h17]
  simp only [jsY, jsX, ok_bind, pure_ok, applyDetection, classifyGestureSpec]
  by_cases h1 : Real.sqrt ((tT.x - iT.x) ^ 2 + (tT.y - iT.y) ^ 2) < 0.05
  · simp only [if_pos h1]
  by_cases h2 : ¬iT.y < iB.y ∧ ¬mT.y < mB.y ∧ ¬rT.y < rB.y ∧ ¬pT.y < pB.y
  · simp only [if_neg h1, if_pos h2]
  by_cases h3 : iT.y < iB.y ∧ mT.y < mB.y ∧ ¬rT.y < rB.y ∧ ¬pT.y < pB.y
  · simp only [if_neg h1, if_neg h2, if_pos h3]
  by_cases hp : iT.y < iB.y ∧ ¬mT.y < mB.y ∧ ¬rT.y < rB.y ∧ ¬pT.y < pB.y
  · simp only [if_neg h1, if_neg h2, if_neg h3, if_pos hp]
  by_cases ho : iT.y < iB.y ∧ mT.y < mB.y ∧ rT.y < rB.y ∧ pT.y < pB.y
  · simp only [if_neg h1, if_neg h2, if_neg h3, if_neg hp, if_pos ho]
  · simp only [if_neg h1, if_neg h2, if_neg h3, if_neg hp, if_neg ho]

/-- The initial config value (App.tsx lines 60-66). -/
noncomputable def cfgInit : GlobalConfig :=
  ⟨ParticleMode.FLOAT, some "#00ffff", some 1, 2000, 1⟩

/-- A 21-point landmark list forming a pinch: thumb tip (index 4) and
index tip (index 8) are 0.01 apart. -/
noncomputable def pinchHand : List Landmark :=
  [⟨0, 0⟩, ⟨0, 0⟩, ⟨0, 0⟩, ⟨0, 0⟩, ⟨0.5, 0.5⟩,
   ⟨0.5, 0.4⟩, ⟨0, 0⟩, ⟨0, 0⟩, ⟨0.5, 0.51⟩, ⟨0, 0⟩,
   ⟨0, 0⟩, ⟨0, 0⟩, ⟨0, 0⟩, ⟨0.4, 0.4⟩, ⟨0, 0⟩,
   ⟨0, 0⟩, ⟨0, 0⟩, ⟨0.4, 0.4⟩, ⟨0, 0⟩, ⟨0, 0⟩,
   ⟨0, 0⟩]

/-- A 21-point landmark list forming a fist: every non-thumb tip sits
below its base knuckle and the thumb is far from the index tip. -/
noncomputable def fistHand : List Landmark :=
  [⟨0, 0⟩, ⟨0, 0⟩, ⟨0, 0⟩, ⟨0, 0⟩, ⟨0, 0⟩,
   ⟨0.5, 0.4⟩, ⟨0, 0⟩, ⟨0, 0⟩, ⟨0.5, 0.5⟩, ⟨0.4, 0.4⟩,
   ⟨0, 0⟩, ⟨0, 0⟩, ⟨0.4, 0.5⟩, ⟨0.3, 0.4⟩, ⟨0, 0⟩,
   ⟨0, 0⟩, ⟨0.3, 0.5⟩, ⟨0.2, 0.4⟩, ⟨0, 0⟩, ⟨0, 0⟩,
   ⟨0.2, 0.5⟩]

/-- C6: for every 21-point landmark set, classification follows exactly
the precedence order PINCH, FIST, PEACE, POINT, OPEN PALM, NEUTRAL with
the first matching predicate winning (the routine equals the spec table
composed with the write tail); in particular a detected PINCH yields the
PINCH outcome with size 0.5 written and the mode left unchanged, even when
the landmarks would also satisfy a later predicate. -/
theorem gesture_precedence (landmarks : List Landmark) (config : GlobalConfig)
    (currentGesture : String) (tT iT mT rT pT iB mB rB pB : Landmark)
    (h4 : landmarks.get? 4 = some tT) (h8 : landmarks.get? 8 = some iT)
    (h12 : landmarks.get? 12 = some mT) (h16 : landmarks.get? 16 = some rT)
    (h20 : landmarks.get? 20 = some pT) (h5 : landmarks.get? 5 = some iB)
    (h9 : landmarks.get? 9 = some mB) (h13 : landmarks.get? 13 = some rB)
    (h17 : landmarks.get? 17 = some pB) :
    (analyzeGesture landmarks config currentGesture =
      Except.ok (applyDetection
        (classifyGestureSpec tT iT mT rT pT iB mB rB pB config.mode)
        config currentGesture)) ∧
    (Real.sqrt ((tT.x - iT.x) ^ 2 + (tT.y - iT.y) ^ 2) < 0.05 →
      classifyGestureSpec tT iT mT rT pT iB mB rB pB config.mode =
        ⟨"PINCH (Resize)", config.mode, some 0.5⟩ ∧
      (analyzeGesture landmarks config currentGesture).map
          (fun out => (out.2.1.mode, out.2.1.size)) =
        Except.ok (config.mode, 0.5)) := by
  refine ⟨analyzeGesture_eq_spec landmarks config currentGesture tT iT mT rT pT iB mB rB pB
    h4 h8 h12 h16 h20 h5 h9 h13 h17, fun hp => ⟨?_, ?_⟩⟩
  · simp only [classifyGestureSpec, if_pos hp]
  · rw [analyzeGesture_eq_spec landmarks config currentGesture tT iT mT rT pT iB mB rB pB
      h4 h8 h12 h16 h20 h5 h9 h13 h17]
    have hdet : classifyGestureSpec tT iT mT rT pT iB mB rB pB config.mode =
        ⟨"PINCH (Resize)", config.mode, some 0.5⟩ := by
      simp only [classifyGestureSpec, if_pos hp]
    rw [hdet]
    by_cases hgc : currentGesture = "PINCH (Resize)" <;>
      simp [applyDetection, applyWrites, applyWrite, hgc, Except.map]

/-- Witness for C6: the pinch hand leaves the mode untouched and sets
size 0.5. -/
theorem gesture_precedence_witness :
    (analyzeGesture pinchHand cfgInit "None").map
        (fun out => (out.2.1.mode, out.2.1.size)) =
      Except.ok (cfgInit.mode, 0.5) :=
  ((gesture_precedence pinchHand cfgInit "None" ⟨0.5, 0.5⟩ ⟨0.5, 0.51⟩ ⟨0, 0⟩ ⟨0, 0⟩
      ⟨0, 0⟩ ⟨0.5, 0.4⟩ ⟨0, 0⟩ ⟨0.4, 0.4⟩ ⟨0.4, 0.4⟩
      rfl rfl rfl rfl rfl rfl rfl rfl rfl).2
    (by
      rw [Real.sqrt_lt' (by norm_num)]
      norm_num)).2

/-- The spec-table label is never the empty string. -/
theorem classify_label_ne_empty (tT iT mT rT pT iB mB rB pB : Landmark) (mode : String) :
    (classifyGestureSpec tT iT mT rT pT iB mB rB pB mode).label ≠ "" := by
  simp only [classifyGestureSpec]
  split_ifs <;> simp

/-- Which writes the debounce tail emits, for any detection outcome with a
nonempty label. -/
theorem applyDetection_writes (det : Detection) (config : GlobalConfig) (g : String)
    (hlabel : det.label ≠ "") :
    (∀ v, det.sizeWrite = some v →
        ConfigWrite.setSize v ∈ (applyDetection det config g).1) ∧
    (ConfigWrite.setMode det.mode ∈ (applyDetection det config g).1 ↔
      det.mode ≠ config.mode) ∧
    ((∃ s, ConfigWrite.setGesture s ∈ (applyDetection det config g).1) ↔
      (det.mode ≠ config.mode ∨ g ≠ det.label)) := by
  obtain ⟨label, dmode, sw⟩ := det
  simp only [Detection.label] at hlabel
  by_cases hm : dmode = config.mode <;> by_cases hg : g = label <;>
    rcases sw with _ | v <;>
    simp [applyDetection, hm, hg, hlabel]

/-- C10 (amended): with a full landmark set, a matching PINCH rule always
logs a size 0.5 write and a matching OPEN PALM rule always logs a size 1.0
write, regardless of the current size (size writes are not debounced); the
mode write is logged exactly when the detected mode differs from the
current mode; and a gesture-label write is logged exactly when the mode
write fires or the detected label differs from the displayed one — so a
mode change logs a label write even when the label is unchanged. -/
theorem gesture_size_not_debounced (landmarks : List Landmark) (config : GlobalConfig)
    (currentGesture : String) (tT iT mT rT pT iB mB rB pB : Landmark)
    (h4 : landmarks.get? 4 = some tT) (h8 : landmarks.get? 8 = some iT)
    (h12 : landmarks.get? 12 = some mT) (h16 : landmarks.get? 16 = some rT)
    (h20 : landmarks.get? 20 = some pT) (h5 : landmarks.get? 5 = some iB)
    (h9 : landmarks.get? 9 = some mB) (h13 : landmarks.get? 13 = some rB)
    (h17 : landmarks.get? 17 = some pB) :
    (analyzeGesture landmarks config currentGesture =
      Except.ok (applyDetection
        (classifyGestureSpec tT iT mT rT pT iB mB rB pB config.mode)
        config currentGesture)) ∧
    (∀ v, (classifyGestureSpec tT iT mT rT pT iB mB rB pB config.mode).sizeWrite = some v →
        ConfigWrite.setSize v ∈
          (applyDetection (classifyGestureSpec tT iT mT rT pT iB mB rB pB config.mode)
            config currentGesture).1) ∧
    (ConfigWrite.setMode (classifyGestureSpec tT iT mT rT pT iB mB rB pB config.mode).mode ∈
        (applyDetection (classifyGestureSpec tT iT mT rT pT iB mB rB pB config.mode)
          config currentGesture).1 ↔
      (classifyGestureSpec tT iT mT rT pT iB mB rB pB config.mode).mode ≠ config.mode) ∧
    ((∃ s, ConfigWrite.setGesture s ∈
        (applyDetection (classifyGestureSpec tT iT mT rT pT iB mB rB pB config.mode)
          config currentGesture).1) ↔
      ((classifyGestureSpec tT iT mT rT pT iB mB rB pB config.mode).mode ≠ config.mode ∨
        currentGesture ≠
          (classifyGestureSpec tT iT mT rT pT iB mB rB pB config.mode).label)) := by
  obtain ⟨w1, w2, w3⟩ := applyDetection_writes
    (classifyGestureSpec tT iT mT rT pT iB mB rB pB config.mode) config currentGesture
    (classify_label_ne_empty tT iT mT rT pT iB mB rB pB config.mode)
  exact ⟨analyzeGesture_eq_spec landmarks config currentGesture tT iT mT rT pT iB mB rB pB
    h4 h8 h12 h16 h20 h5 h9 h13 h17, w1, w2, w3⟩

/-- Witness for C10: the pinch hand logs the size 0.5 write. -/
theorem gesture_size_write_witness :
    ConfigWrite.setSize 0.5 ∈
      (applyDetection
        (classifyGestureSpec ⟨0.5, 0.5⟩ ⟨0.5, 0.51⟩ ⟨0, 0⟩ ⟨0, 0⟩ ⟨0, 0⟩
          ⟨0.5, 0.4⟩ ⟨0, 0⟩ ⟨0.4, 0.4⟩ ⟨0.4, 0.4⟩ cfgInit.mode)
        cfgInit "None").1 :=
  (gesture_size_not_debounced pinchHand cfgInit "None" ⟨0.5, 0.5⟩ ⟨0.5, 0.51⟩ ⟨0, 0⟩
      ⟨0, 0⟩ ⟨0, 0⟩ ⟨0.5, 0.4⟩ ⟨0, 0⟩ ⟨0.4, 0.4⟩ ⟨0.4, 0.4⟩
      rfl rfl rfl rfl rfl rfl rfl rfl rfl).2.1 0.5
    (by
      have hp : Real.sqrt (((0.5 : ℝ) - 0.5) ^ 2 + ((0.5 : ℝ) - 0.51) ^ 2) < 0.05 := by
        rw [Real.sqrt_lt' (by norm_num)]
        norm_num
      simp only [classifyGestureSpec]
      rw [if_pos hp])

/-- Counterexample for C10 as stated: with the fist hand, mode float and
the displayed label already equal to "FIST (Gather)", the frame still logs
a gesture-label write (alongside the mode write), even though the detected
label does not differ from the previously applied one. -/
theorem gesture_label_write_redundant :
    analyzeGesture fistHand cfgInit "FIST (Gather)" =
      Except.ok ([ConfigWrite.setMode ParticleMode.GATHER,
                  ConfigWrite.setGesture "FIST (Gather)"],
        { cfgInit with mode := ParticleMode.GATHER }, "FIST (Gather)") := by
  rw [analyzeGesture_eq_spec fistHand cfgInit "FIST (Gather)" ⟨0, 0⟩ ⟨0.5, 0.5⟩
    ⟨0.4, 0.5⟩ ⟨0.3, 0.5⟩ ⟨0.2, 0.5⟩ ⟨0.5, 0.4⟩ ⟨0.4, 0.4⟩ ⟨0.3, 0.4⟩ ⟨0.2, 0.4⟩
    rfl rfl rfl rfl rfl rfl rfl rfl rfl]
  have hpinch : ¬ Real.sqrt (((0 : ℝ) - 0.5) ^ 2 + ((0 : ℝ) - 0.5) ^ 2) < 0.05 := by
    rw [Real.sqrt_lt' (by norm_num)]
    norm_num
  have hfist : ¬ ((0.5 : ℝ) < 0.4) ∧ ¬ ((0.5 : ℝ) < 0.4) ∧ ¬ ((0.5 : ℝ) < 0.4) ∧
      ¬ ((0.5 : ℝ) < 0.4) := by norm_num
  simp only [classifyGestureSpec, cfgInit]
  rw [if_neg hpinch, if_pos hfist]
  simp [applyDetection, applyWrites, applyWrite, cfgInit, ParticleMode.GATHER,
    ParticleMode.FLOAT]

/-- C5 (amended): a detection with zero hands is skipped without throwing
and without altering the config or the label; but a nonempty landmark list
with fewer than 21 points is not treated as "no hand detected" — the
classification dereferences a missing index and throws a TypeError. -/
theorem short_landmark_lists_throw :
    (∀ (config : GlobalConfig) (g : String),
        predictWebcamStep [] config g = Except.ok ([], config, g)) ∧
    (∀ (landmarks : List Landmark) (config : GlobalConfig) (g : String),
        landmarks.length < 21 →
        analyzeGesture landmarks config g = Except.error JsError.typeError) := by
  refine ⟨fun config g => rfl, fun landmarks config g hlen => ?_⟩
  have h20 : landmarks.get? 20 = none := by
    rw [List.get?_eq_none]
    omega
  rcases h8 : landmarks.get? 8 with _ | iT
  · rw [analyzeGesture, h8]; rfl
  rcases h5 : landmarks.get? 5 with _ | iB
  · rw [analyzeGesture, h8, h5]; rfl
  rcases h12 : landmarks.get? 12 with _ | mT
  · rw [analyzeGesture, h8, h5, h12]; rfl
  rcases h9 : landmarks.get? 9 with _ | mB
  · rw [analyzeGesture, h8, h5, h12, h9]; rfl
  rcases h16 : landmarks.get? 16 with _ | rT
  · rw [analyzeGesture, h8, h5, h12, h9, h16]; rfl
  rcases h13 : landmarks.get? 13 with _ | rB
  · rw [analyzeGesture, h8, h5, h12, h9, h16, h13]; rfl
  · rw [analyzeGesture, h8, h5, h12, h9, h16, h13, h20]; rfl

/-- Witness for C5 at a 3-point landmark list. -/
theorem short_landmark_witness :
    analyzeGesture [⟨0, 0⟩, ⟨0, 0⟩, ⟨0, 0⟩] cfgInit "None" =
      Except.error JsError.typeError :=
  short_landmark_lists_throw.2 [⟨0, 0⟩, ⟨0, 0⟩, ⟨0, 0⟩] cfgInit "None" (by norm_num)

/-- Counterexample for C5 as stated: a frame with one detected hand whose
landmark list has a single point is not skipped — it throws a TypeError
instead of being treated as "no hand detected". -/
theorem one_point_hand_throws :
    predictWebcamStep [[⟨0, 0⟩]] cfgInit "None" = Except.error JsError.typeError := by
  show analyzeGesture [⟨0, 0⟩] cfgInit "None" = _
  rw [analyzeGesture]
  rfl

/-! ## Voice tool calls (App.tsx handleToolCalls, lines 298-319) -/

/-- Arguments object of a tool call; each recognized field may be absent
(undefined). -/
structure FunctionCallArgs where
  color : Option String
  speed : Option ℝ

/-- One function call delivered by the voice session; the args object
itself may be undefined. -/
structure FunctionCall where
  name : String
  args : Option FunctionCallArgs
  id : String

/-- The response pushed for one call: id, name and the result status. -/
structure FunctionResponse where
  id : String
  name : String
  status : String

/-- The tool-call handler (App.tsx lines 298-319).  Every call is
acknowledged with status "ok"; recognized calls copy their argument value
into the config verbatim, with no validation.  The queued functional state
updates are applied immediately (single-threaded semantics), so reading a
field of an undefined args object surfaces as a TypeError. -/
def handleToolCalls (config : GlobalConfig) :
    List FunctionCall → Except JsError (GlobalConfig × List FunctionResponse)
  | [] => Except.ok (config, [])
  | call :: rest =>
      if call.name = "setParticleColor" then
        match call.args with
        | none => Except.error JsError.typeError
        | some a =>
            (handleToolCalls { config with color := a.color } rest).map
              (fun out => (out.1, ⟨call.id, call.name, "ok"⟩ :: out.2))
      else if call.name = "setParticleSpeed" then
        match call.args with
        | none => Except.error JsError.typeError
        | some a =>
            (handleToolCalls { config with speed := a.speed } rest).map
              (fun out => (out.1, ⟨call.id, call.name, "ok"⟩ :: out.2))
      else
        (handleToolCalls config rest).map
          (fun out => (out.1, ⟨call.id, call.name, "ok"⟩ :: out.2))

/-- C4 (amended): the handler never reports a non-ok status — every
acknowledged call is answered with status "ok" keyed by its call id; a
recognized call whose args object is present has its (possibly undefined)
argument value written into the config verbatim rather than leaving the
field unchanged; and a recognized call whose args object is itself absent
raises a TypeError when the queued update is applied. -/
theorem toolcalls_always_ok_unvalidated :
    (∀ (config : GlobalConfig) (c : FunctionCall) (a : FunctionCallArgs),
        c.name = "setParticleColor" → c.args = some a →
        handleToolCalls config [c] =
          Except.ok ({ config with color := a.color }, [⟨c.id, c.name, "ok"⟩])) ∧
    (∀ (config : GlobalConfig) (c : FunctionCall) (a : FunctionCallArgs),
        c.name = "setParticleSpeed" → c.args = some a →
        handleToolCalls config [c] =
          Except.ok ({ config with speed := a.speed }, [⟨c.id, c.name, "ok"⟩])) ∧
    (∀ (config : GlobalConfig) (c : FunctionCall),
        c.name = "setParticleColor" → c.args = none →
        handleToolCalls config [c] = Except.error JsError.typeError) ∧
    (∀ (config : GlobalConfig) (calls : List FunctionCall)
        (out : GlobalConfig × List FunctionResponse),
        handleToolCalls config calls = Except.ok out →
        ∀ r ∈ out.2, r.status = "ok") := by
  refine ⟨?_, ?_, ?_, ?_⟩
  · rintro config ⟨nm, ar, id_⟩ a hn ha
    simp only at hn ha
    subst hn ha
    simp [handleToolCalls, Except.map]
  · rintro config ⟨nm, ar, id_⟩ a hn ha
    simp only at hn ha
    subst hn ha
    simp [handleToolCalls, Except.map]
  · rintro config ⟨nm, ar, id_⟩ hn ha
    simp only at hn ha
    subst hn ha
    simp [handleToolCalls]
  · intro config calls
    induction calls generalizing config with
    | nil =>
        intro out h r hr
        simp only [handleToolCalls] at h
        cases h
        simp at hr
    | cons call rest ih =>
        intro out h r hr
        rw [handleToolCalls] at h
        by_cases h1 : call.name = "setParticleColor"
        · rw [if_pos h1] at h
          rcases ha : call.args with _ | a <;> simp only [ha] at h
          · cases h
          · rcases hrec : handleToolCalls { config with color := a.color } rest with e | val <;>
              rw [hrec] at h
            · cases h
            · simp only [Except.map] at h
              have hout := (Except.ok.inj h).symm
              subst hout
              rcases List.mem_cons.mp hr with hr2 | hr2
              · rw [hr2]
              · exact ih _ _ hrec r hr2
        · rw [if_neg h1] at h
          by_cases h2 : call.name = "setParticleSpeed"
          · rw [if_pos h2] at h
            rcases ha : call.args with _ | a <;> simp only [ha] at h
            · cases h
            · rcases hrec : handleToolCalls { config with speed := a.speed } rest with e | val <;>
                rw [hrec] at h
              · cases h
              · simp only [Except.map] at h
                have hout := (Except.ok.inj h).symm
                subst hout
                rcases List.mem_cons.mp hr with hr2 | hr2
                · rw [hr2]
                · exact ih _ _ hrec r hr2
          · rw [if_neg h2] at h
            rcases hrec : handleToolCalls config rest with e | val <;> rw [hrec] at h
            · cases h
            · simp only [Except.map] at h
              have hout := (Except.ok.inj h).symm
              subst hout
              rcases List.mem_cons.mp hr with hr2 | hr2
              · rw [hr2]
              · exact ih _ _ hrec r hr2

/-- Witness for C4 at a concrete speed call. -/
theorem toolcalls_witness :
    handleToolCalls cfgInit [⟨"setParticleSpeed", some ⟨none, some 3⟩, "c9"⟩] =
      Except.ok ({ cfgInit with speed := some 3 },
        [⟨"c9", "setParticleSpeed", "ok"⟩]) :=
  toolcalls_always_ok_unvalidated.2.1 cfgInit
    ⟨"setParticleSpeed", some ⟨none, some 3⟩, "c9"⟩ ⟨none, some 3⟩ rfl rfl

/-- Counterexample for C4 as stated: a setParticleColor call whose args
object carries no color is acknowledged with status "ok" (not a non-ok
status) and overwrites the color field with the undefined value (the field
does not stay unchanged); and a call with no args object at all ends in a
thrown TypeError. -/
theorem toolcalls_missing_args_counterexample :
    handleToolCalls cfgInit [⟨"setParticleColor", some ⟨none, none⟩, "call-1"⟩] =
      Except.ok ({ cfgInit with color := none },
        [⟨"call-1", "setParticleColor", "ok"⟩]) ∧
    ({ cfgInit with color := none }).color ≠ cfgInit.color ∧
    handleToolCalls cfgInit [⟨"setParticleColor", none, "call-2"⟩] =
      Except.error JsError.typeError := by
  refine ⟨?_, ?_, ?_⟩
  · simp [handleToolCalls, Except.map]
  · simp [cfgInit]
  · simp [handleToolCalls]

end KineticParticle
